import Mathlib

/-!
Verification of the ATS resume-ingestion pipeline against its specification.

Each component is shallowly embedded from the Python source:
* `_validate_parsed_data` (quality classifier) from
  `app/controllers/resume_controller.py`
* `_check_resume_uniqueness` (duplicate detector) from the same file
* `ContactExtractor._combine_results` from `app/services/contact_extractor.py`
* `RetryProcessor` from `app/services/retry_processor.py`
* `FileValidator.validate_file` from `app/services/file_validator.py`
* `_background_process_bulk`, `process_reupload_files` and
  `_process_single_file_from_data` (bulk orchestrator) from
  `app/controllers/resume_controller.py`

Python dict values relevant to the classifier are either strings or lists of
strings, modelled by `PyVal`.  Python truthiness and `str(...)` are modelled
only as far as the code consumes them.
-/

namespace ATS

/-- Python `len(str(x)) == 0` style emptiness, via the character list (kept
kernel-computable). -/
def pyIsEmptyStr (s : String) : Bool := s.data.isEmpty

/-- Python `str.strip()`: drop leading and trailing whitespace. -/
def pyStrip (s : String) : String :=
  ⟨((s.data.dropWhile Char.isWhitespace).reverse.dropWhile Char.isWhitespace).reverse⟩

/-- Python `str.lower()` (ASCII case folding suffices for this code). -/
def pyLower (s : String) : String := ⟨s.data.map Char.toLower⟩

/-- A Python value stored in a parsed-resume dict: a string or a list of
strings.  (The classifier only inspects values through truthiness,
`str(value).strip()` and `isinstance(value, list)`.) -/
inductive PyVal where
  | s (v : String)
  | l (xs : List String)
deriving DecidableEq, Repr

/-- Python truthiness of a `PyVal`: non-empty string or non-empty list. -/
def PyVal.truthy : PyVal → Bool
  | .s v => !pyIsEmptyStr v
  | .l xs => !xs.isEmpty

/-- Python `str(value)`.  For a list the exact rendering is irrelevant to the
code (only `.strip()` emptiness is consumed); the bracketed form keeps the key
property that `str` of any list is non-blank. -/
def PyVal.pyStr : PyVal → String
  | .s v => v
  | .l xs => "[" ++ String.intercalate ", " xs ++ "]"

/-- `not value or not str(value).strip()`: the blank test used for the
essential fields Name/Email/Phone. -/
def PyVal.isBlank (v : PyVal) : Bool :=
  !v.truthy || pyIsEmptyStr (pyStrip v.pyStr)

/-- `v and str(v).strip()` as a boolean: the populated-field test used for
the completeness count. -/
def PyVal.isPopulated (v : PyVal) : Bool :=
  v.truthy && !pyIsEmptyStr (pyStrip v.pyStr)

/-- `not value or not isinstance(value, list) or len(value) == 0`: the test
producing the secondary warnings for Experience/Skills/Education. -/
def PyVal.isNotNonemptyList : PyVal → Bool
  | .s _ => true
  | .l xs => xs.isEmpty

/-- A parsed-resume record: a Python dict as an association list. -/
def ParsedData := List (String × PyVal)

/-- `parsed_data.get(key, default)`. -/
def pyGet (d : ParsedData) (key : String) (default : PyVal) : PyVal :=
  match d.find? (fun p => p.1 == key) with
  | some p => p.2
  | none => default

/-- Quality tiers assigned by `_validate_parsed_data`. -/
inductive Quality where
  | good
  | partialQ
  | poor
deriving DecidableEq, Repr

/-- Result of `_validate_parsed_data` (the keys of the returned dict). -/
structure ValidationOutcome where
  quality : Quality
  warnings : List String
  validationErrors : List String
  completenessScore : Nat
  missingEssentialFields : List String
deriving DecidableEq, Repr

/-- The `missing_essential` list built by the loop over
`["Name", "Email", "Phone"]` in `_validate_parsed_data`. -/
def missingEssential (d : ParsedData) : List String :=
  ((["Name", "Email", "Phone"].filter
      (fun f => (pyGet d f (.s "")).isBlank)).map pyLower)

/-- The secondary `warnings` accumulated for Experience, Skills and
Education in `_validate_parsed_data`. -/
def secondaryWarnings (d : ParsedData) : List String :=
  (if (pyGet d "Experience" (.l [])).isNotNonemptyList then ["missing_experience"] else [])
    ++ (if (pyGet d "Skills" (.l [])).isNotNonemptyList then ["missing_skills"] else [])
    ++ (if (pyGet d "Education" (.l [])).isNotNonemptyList then ["missing_education"] else [])

/-- `total_fields`: the number of dict entries whose value is populated. -/
def populatedCount (d : ParsedData) : Nat :=
  (d.filter (fun p => p.2.isPopulated)).length

/-- `_validate_parsed_data` from `app/controllers/resume_controller.py`
(lines 3561-3627), restricted to dict inputs. -/
def validateBase (d : ParsedData) : ValidationOutcome :=
  if 2 ≤ (missingEssential d).length then
    ⟨Quality.poor, secondaryWarnings d,
      (missingEssential d).map (fun f => "missing_" ++ f), 0, missingEssential d⟩
  else if (missingEssential d).length = 1 ∨ 2 ≤ (secondaryWarnings d).length then
    ⟨Quality.partialQ,
      secondaryWarnings d ++ (missingEssential d).map (fun f => "missing_" ++ f),
      [], 0, missingEssential d⟩
  else
    ⟨Quality.good, secondaryWarnings d, [], 0, missingEssential d⟩

def validateParsedData (d : ParsedData) : ValidationOutcome :=
  if populatedCount d < 5 then
    ⟨Quality.poor, (validateBase d).warnings ++ ["insufficient_data"],
      (validateBase d).validationErrors, populatedCount d,
      (validateBase d).missingEssentialFields⟩
  else
    ⟨(validateBase d).quality, (validateBase d).warnings,
      (validateBase d).validationErrors, populatedCount d,
      (validateBase d).missingEssentialFields⟩

/-- Spec-side count of missing essential fields (claim wording). -/
def specMissingEssentialCount (d : ParsedData) : Nat :=
  (["Name", "Email", "Phone"].countP (fun f => (pyGet d f (.s "")).isBlank))

/-- Spec-side count of secondary warnings (missing experience, skills,
education; claim wording). -/
def specSecondaryWarningCount (d : ParsedData) : Nat :=
  (["Experience", "Skills", "Education"].countP
    (fun f => (pyGet d f (.l [])).isNotNonemptyList))

/-- Spec-side tiering policy, exactly as the claim states it: fewer than 5
populated fields forces poor; otherwise at least 2 missing essentials gives
poor; exactly 1 missing essential or at least 2 secondary warnings gives
partial; otherwise good. -/
def specQuality (d : ParsedData) : Quality :=
  if populatedCount d < 5 then Quality.poor
  else if 2 ≤ specMissingEssentialCount d then Quality.poor
  else if specMissingEssentialCount d = 1 ∨ 2 ≤ specSecondaryWarningCount d then Quality.partialQ
  else Quality.good

theorem missingEssential_length (d : ParsedData) :
    (missingEssential d).length = specMissingEssentialCount d := by
  simp [missingEssential, specMissingEssentialCount, List.countP_eq_length_filter]

theorem secondaryWarnings_length (d : ParsedData) :
    (secondaryWarnings d).length = specSecondaryWarningCount d := by
  simp only [secondaryWarnings, specSecondaryWarningCount, List.countP_cons, List.countP_nil]
  rcases h1 : (pyGet d "Experience" (.l [])).isNotNonemptyList <;>
    rcases h2 : (pyGet d "Skills" (.l [])).isNotNonemptyList <;>
      rcases h3 : (pyGet d "Education" (.l [])).isNotNonemptyList <;>
        simp [h1, h2, h3]

/-- C1: for every parsed record the classifier assigns poor when at least 2
essential fields (Name/Email/Phone) are blank, partial when exactly 1 is
blank or at least 2 secondary warnings are present, good otherwise, and any
record with fewer than 5 populated fields is forced to poor. -/
theorem quality_classifier_matches_tiering_policy (d : ParsedData) :
    (validateParsedData d).quality = specQuality d := by
  unfold validateParsedData validateBase specQuality
  rw [missingEssential_length d, secondaryWarnings_length d]
  by_cases h5 : populatedCount d < 5 <;>
    by_cases h2m : 2 ≤ specMissingEssentialCount d <;>
      by_cases hp : specMissingEssentialCount d = 1 ∨ 2 ≤ specSecondaryWarningCount d <;>
        simp [h5, h2m, hp]

/-! ### Contact extraction and confidence-scored merging

From `app/services/contact_extractor.py`.  The regex engine itself is
abstracted: each method is parameterised by the email/phone it found (if
any); found values are the non-empty normalized strings the code produces.
The confidence assignment and the merge rule are embedded exactly. -/

/-- `ContactInfo` dataclass from `contact_extractor.py`. -/
structure ContactInfo where
  email : Option String
  phone : Option String
  confidence : ℚ
  source : String
deriving DecidableEq, Repr

/-- Confidence rule of `_extract_with_regex`: 0.8 if both fields found,
0.6 if one, 0.0 otherwise. -/
def regexConfidence (email phone : Option String) : ℚ :=
  if email.isSome && phone.isSome then 8/10
  else if email.isSome || phone.isSome then 6/10
  else 0

/-- `_extract_with_regex`, abstracted over the fields the patterns found. -/
def extractWithRegex (email phone : Option String) : ContactInfo :=
  ⟨email, phone, regexConfidence email phone, "regex"⟩

/-- Confidence rule of `_extract_with_context`: 0.9 / 0.7 / 0.0. -/
def contextConfidence (email phone : Option String) : ℚ :=
  if email.isSome && phone.isSome then 9/10
  else if email.isSome || phone.isSome then 7/10
  else 0

/-- `_extract_with_context`, abstracted over the fields found on
keyword-cued lines. -/
def extractWithContext (email phone : Option String) : ContactInfo :=
  ⟨email, phone, contextConfidence email phone, "context"⟩

/-- `ContactExtractor._combine_results` (lines 142-166): context wins for
field values, confidence is the max of the two, +0.1 (capped at 1.0) for
each field on which both methods agree. -/
def combineResults (r c : ContactInfo) : ContactInfo :=
  let conf0 := max r.confidence c.confidence
  let conf1 :=
    if c.email.isSome && r.email.isSome && c.email == r.email then
      min (conf0 + 1/10) 1
    else conf0
  let conf2 :=
    if c.phone.isSome && r.phone.isSome && c.phone == r.phone then
      min (conf1 + 1/10) 1
    else conf1
  ⟨(match c.email with | some e => some e | none => r.email),
   (match c.phone with | some p => some p | none => r.phone),
   conf2,
   if c.email.isSome || c.phone.isSome then "context"
   else if r.email.isSome || r.phone.isSome then "regex"
   else "combined"⟩

theorem regexConfidence_mem (email phone : Option String) :
    0 ≤ regexConfidence email phone ∧ regexConfidence email phone ≤ 1 := by
  unfold regexConfidence
  split_ifs <;> norm_num

theorem contextConfidence_mem (email phone : Option String) :
    0 ≤ contextConfidence email phone ∧ contextConfidence email phone ≤ 1 := by
  unfold contextConfidence
  split_ifs <;> norm_num

theorem bumpIfAgree_mem {x : ℚ} (h0 : 0 ≤ x) (h1 : x ≤ 1) (b : Bool) :
    0 ≤ (if b = true then min (x + 1/10) 1 else x)
      ∧ (if b = true then min (x + 1/10) 1 else x) ≤ 1 := by
  cases b
  · simpa using ⟨h0, h1⟩
  · simp only [if_pos rfl]
    exact ⟨le_min (by linarith) (by norm_num), min_le_right _ _⟩

theorem combineResults_confidence_mem (r c : ContactInfo)
    (h1 : 0 ≤ r.confidence) (h2 : r.confidence ≤ 1)
    (h3 : 0 ≤ c.confidence) (h4 : c.confidence ≤ 1) :
    0 ≤ (combineResults r c).confidence ∧ (combineResults r c).confidence ≤ 1 := by
  unfold combineResults
  dsimp only
  have hmax0 : 0 ≤ max r.confidence c.confidence := le_max_of_le_left h1
  have hmax1 : max r.confidence c.confidence ≤ 1 := max_le h2 h4
  have b1 := bumpIfAgree_mem hmax0 hmax1
    (c.email.isSome && r.email.isSome && c.email == r.email)
  exact bumpIfAgree_mem b1.1 b1.2
    (c.phone.isSome && r.phone.isSome && c.phone == r.phone)

/-- C4: if both extraction methods find the same email, the merged
confidence equals `min(max(pattern, context) + 0.1, 1.0)`, and merged
confidence always lies in [0, 1]. -/
theorem contact_merge_agreement_confidence
    (e1 p1 e2 p2 : Option String) (v : String)
    (hr : e1 = some v) (hc : e2 = some v) :
    ((combineResults (extractWithRegex e1 p1) (extractWithContext e2 p2)).confidence
        = min (max (extractWithRegex e1 p1).confidence
                   (extractWithContext e2 p2).confidence + 1/10) 1)
      ∧ ∀ f1 q1 f2 q2 : Option String,
          0 ≤ (combineResults (extractWithRegex f1 q1) (extractWithContext f2 q2)).confidence
          ∧ (combineResults (extractWithRegex f1 q1) (extractWithContext f2 q2)).confidence ≤ 1 := by
  constructor
  · subst hr; subst hc
    rcases p1 with _ | pv1 <;> rcases p2 with _ | pv2 <;>
      simp only [combineResults, extractWithRegex, extractWithContext,
        regexConfidence, contextConfidence, Option.isSome_some, Option.isSome_none,
        Bool.and_true, Bool.and_false, Bool.true_and, Bool.false_and,
        Bool.or_true, Bool.or_false, Bool.true_or, Bool.false_or, beq_self_eq_true,
        if_true, if_false, Bool.and_self, and_self]
    · norm_num
    · norm_num
    · norm_num
    · by_cases hp : (some pv2 == some pv1) = true
      · simp only [hp, if_true]
        norm_num [min_def, max_def]
      · simp only [Bool.not_eq_true] at hp
        simp only [hp, Bool.and_false, Bool.false_and, if_false]
        norm_num [min_def, max_def]
  · intro f1 q1 f2 q2
    exact combineResults_confidence_mem _ _
      (regexConfidence_mem f1 q1).1 (regexConfidence_mem f1 q1).2
      (contextConfidence_mem f2 q2).1 (contextConfidence_mem f2 q2).2

/-- Witness for C4 at a concrete agreement input. -/
theorem contact_merge_agreement_confidence_witness :
    ((combineResults (extractWithRegex (some "jane@acme.com") none)
        (extractWithContext (some "jane@acme.com") none)).confidence
      = min (max (extractWithRegex (some "jane@acme.com") none).confidence
                 (extractWithContext (some "jane@acme.com") none).confidence + 1/10) 1)
    ∧ ∀ f1 q1 f2 q2 : Option String,
        0 ≤ (combineResults (extractWithRegex f1 q1) (extractWithContext f2 q2)).confidence
        ∧ (combineResults (extractWithRegex f1 q1) (extractWithContext f2 q2)).confidence ≤ 1 :=
  contact_merge_agreement_confidence (some "jane@acme.com") none
    (some "jane@acme.com") none "jane@acme.com" rfl rfl

/-! ### Duplicate detection (`_check_resume_uniqueness`)

From `app/controllers/resume_controller.py` lines 716-853.  A record is the
projection of a parsed-data dict onto the fields the check reads
(`Name`, `Email`, `Phone`, `Skills`, each defaulting to blank).  The
bounded history read is modelled as an `Except` value: `.error` is a failed
`get_all_resumes` call. -/

/-- The fields of a parsed record consulted by the uniqueness check. -/
structure RawRecord where
  name : String
  email : String
  phone : String
  skills : List String
deriving DecidableEq, Repr

/-- `[skill.strip().lower() for skill in skills if skill.strip()]`. -/
def normalizeSkills (skills : List String) : List String :=
  (skills.filter (fun s => !pyIsEmptyStr (pyStrip s))).map (fun s => pyLower (pyStrip s))

/-- Which field triggered a duplicate verdict. -/
inductive DupField where
  | byName
  | byEmail
  | byPhone
  | bySkills
deriving DecidableEq, Repr

/-- Skill-set Jaccard similarity: `len(common)/len(total)` over the two
normalized skill sets, 0 when the union is empty. -/
def skillsSimilarity (s1 s2 : List String) : ℚ :=
  if 0 < (s1.toFinset ∪ s2.toFinset).card then
    ((s1.toFinset ∩ s2.toFinset).card : ℚ) / (s1.toFinset ∪ s2.toFinset).card
  else 0

/-- The per-existing-record body of the loop in `_check_resume_uniqueness`:
name, then email, then phone, then skill similarity. -/
def checkExisting (name email phone : String) (skillsN : List String)
    (ex : RawRecord) : Option DupField :=
  if !pyIsEmptyStr name && !pyIsEmptyStr (pyLower (pyStrip ex.name)) && name == pyLower (pyStrip ex.name) then
    some .byName
  else if !pyIsEmptyStr email && !pyIsEmptyStr (pyLower (pyStrip ex.email)) && email == pyLower (pyStrip ex.email) then
    some .byEmail
  else if !pyIsEmptyStr phone && !pyIsEmptyStr (pyStrip ex.phone) && phone == pyStrip ex.phone then
    some .byPhone
  else if !skillsN.isEmpty && !(normalizeSkills ex.skills).isEmpty
      && decide ((4 : ℚ)/5 ≤ skillsSimilarity skillsN (normalizeSkills ex.skills)) then
    some .bySkills
  else
    none

/-- The loop over the history sample: first matching record wins. -/
def findDuplicate (name email phone : String) (skillsN : List String) :
    List RawRecord → Option DupField
  | [] => none
  | ex :: rest =>
    match checkExisting name email phone skillsN ex with
    | some f => some f
    | none => findDuplicate name email phone skillsN rest

/-- The four outcomes of `_check_resume_uniqueness` (the `reason` key). -/
inductive UniquenessOutcome where
  | missingRequiredFields (fields : List String)
  | dbCheckSkipped
  | duplicate (field : DupField)
  | uniqueResume
deriving DecidableEq, Repr

/-- The `is_unique` flag the code pairs with each outcome. -/
def UniquenessOutcome.isUniqueFlag : UniquenessOutcome → Bool
  | .missingRequiredFields _ => false
  | .dbCheckSkipped => true
  | .duplicate _ => false
  | .uniqueResume => true

/-- The `missing_fields` list built before any history access. -/
def missingFieldsOf (c : RawRecord) : List String :=
  (if pyIsEmptyStr (pyLower (pyStrip c.name)) then ["Name"] else [])
    ++ (if pyIsEmptyStr (pyLower (pyStrip c.email)) then ["Email"] else [])
    ++ (if pyIsEmptyStr (pyStrip c.phone) then ["Phone"] else [])
    ++ (if (normalizeSkills c.skills).isEmpty then ["Skills"] else [])

/-- `_check_resume_uniqueness`: missing-field rejection first, then the
history read (a failure is treated as unique), then the duplicate scan. -/
def checkResumeUniqueness (c : RawRecord)
    (history : Except Unit (List RawRecord)) : UniquenessOutcome :=
  if !(missingFieldsOf c).isEmpty then
    .missingRequiredFields (missingFieldsOf c)
  else
    match history with
    | .error _ => .dbCheckSkipped
    | .ok existing =>
      match findDuplicate (pyLower (pyStrip c.name)) (pyLower (pyStrip c.email))
          (pyStrip c.phone) (normalizeSkills c.skills) existing with
      | some f => .duplicate f
      | none => .uniqueResume

/-- Spec-side duplicate criterion for one prior record (claim wording):
case-insensitive name or email match, phone match after normalization, or
skill-set Jaccard similarity at least 0.8. -/
def specMatches (c ex : RawRecord) : Prop :=
  pyLower (pyStrip c.name) = pyLower (pyStrip ex.name)
    ∨ pyLower (pyStrip c.email) = pyLower (pyStrip ex.email)
    ∨ pyStrip c.phone = pyStrip ex.phone
    ∨ (4 : ℚ)/5 ≤ skillsSimilarity (normalizeSkills c.skills) (normalizeSkills ex.skills)

theorem missingFieldsOf_nil_iff (c : RawRecord) :
    missingFieldsOf c = [] ↔
      !pyIsEmptyStr (pyLower (pyStrip c.name)) ∧ !pyIsEmptyStr (pyLower (pyStrip c.email))
        ∧ !pyIsEmptyStr (pyStrip c.phone) ∧ !(normalizeSkills c.skills).isEmpty := by
  unfold missingFieldsOf
  rcases h1 : pyIsEmptyStr (pyLower (pyStrip c.name)) <;>
    rcases h2 : pyIsEmptyStr (pyLower (pyStrip c.email)) <;>
      rcases h3 : pyIsEmptyStr (pyStrip c.phone) <;>
        rcases h4 : (normalizeSkills c.skills).isEmpty <;>
          simp [h1, h2, h3, h4]

theorem skillsSimilarity_right_nil (s1 : List String) :
    skillsSimilarity s1 [] = 0 := by
  unfold skillsSimilarity
  split_ifs <;> simp

theorem checkExisting_some_iff (c ex : RawRecord)
    (hmiss : missingFieldsOf c = []) :
    (∃ f, checkExisting (pyLower (pyStrip c.name)) (pyLower (pyStrip c.email))
        (pyStrip c.phone) (normalizeSkills c.skills) ex = some f)
      ↔ specMatches c ex := by
  obtain ⟨hn, he, hp, hs⟩ := (missingFieldsOf_nil_iff c).mp hmiss
  unfold checkExisting specMatches
  split_ifs with h1 h2 h3 h4
  · rw [Bool.and_eq_true, Bool.and_eq_true, beq_iff_eq] at h1
    exact ⟨fun _ => Or.inl h1.2, fun _ => ⟨.byName, rfl⟩⟩
  · rw [Bool.and_eq_true, Bool.and_eq_true, beq_iff_eq] at h2
    exact ⟨fun _ => Or.inr (Or.inl h2.2), fun _ => ⟨.byEmail, rfl⟩⟩
  · rw [Bool.and_eq_true, Bool.and_eq_true, beq_iff_eq] at h3
    exact ⟨fun _ => Or.inr (Or.inr (Or.inl h3.2)), fun _ => ⟨.byPhone, rfl⟩⟩
  · rw [Bool.and_eq_true, Bool.and_eq_true, decide_eq_true_eq] at h4
    exact ⟨fun _ => Or.inr (Or.inr (Or.inr h4.2)), fun _ => ⟨.bySkills, rfl⟩⟩
  · constructor
    · rintro ⟨f, hf⟩; cases hf
    · intro hm
      exfalso
      rcases hm with hm | hm | hm | hm
      · refine h1 ?_
        rw [Bool.and_eq_true, Bool.and_eq_true, beq_iff_eq]
        exact ⟨⟨hn, hm ▸ hn⟩, hm⟩
      · refine h2 ?_
        rw [Bool.and_eq_true, Bool.and_eq_true, beq_iff_eq]
        exact ⟨⟨he, hm ▸ he⟩, hm⟩
      · refine h3 ?_
        rw [Bool.and_eq_true, Bool.and_eq_true, beq_iff_eq]
        exact ⟨⟨hp, hm ▸ hp⟩, hm⟩
      · by_cases hexs : normalizeSkills ex.skills = []
        · rw [hexs, skillsSimilarity_right_nil] at hm
          norm_num at hm
        · refine h4 ?_
          rw [Bool.and_eq_true, Bool.and_eq_true, decide_eq_true_eq]
          exact ⟨⟨hs, by simpa using hexs⟩, hm⟩

theorem findDuplicate_some_iff (c : RawRecord) (hist : List RawRecord)
    (hmiss : missingFieldsOf c = []) :
    (∃ f, findDuplicate (pyLower (pyStrip c.name)) (pyLower (pyStrip c.email))
        (pyStrip c.phone) (normalizeSkills c.skills) hist = some f)
      ↔ ∃ ex ∈ hist, specMatches c ex := by
  induction hist with
  | nil => simp [findDuplicate]
  | cons ex rest ih =>
    simp only [findDuplicate]
    rcases hx : checkExisting (pyLower (pyStrip c.name)) (pyLower (pyStrip c.email))
        (pyStrip c.phone) (normalizeSkills c.skills) ex with _ | f
    · have hnx : ¬ specMatches c ex := by
        rw [← checkExisting_some_iff c ex hmiss]
        simp [hx]
      simp only [List.mem_cons]
      constructor
      · intro hf
        obtain ⟨ey, hey, hm⟩ := ih.mp hf
        exact ⟨ey, Or.inr hey, hm⟩
      · rintro ⟨ey, hey | hey, hm⟩
        · exact absurd hm (hey ▸ hnx)
        · exact ih.mpr ⟨ey, hey, hm⟩
    · have hmx : specMatches c ex :=
        (checkExisting_some_iff c ex hmiss).mp ⟨f, hx⟩
      simp only [List.mem_cons]
      exact ⟨fun _ => ⟨ex, Or.inl rfl, hmx⟩, fun _ => ⟨f, rfl⟩⟩

/-- Concrete records for the Jaccard-threshold instances. -/
def jaccardCand : RawRecord :=
  ⟨"Ada Lovelace", "ada@calc.org", "5551112222", ["java", "python", "sql", "go", "rust"]⟩

/-- Shares 4 of the candidate's 5 skills; union has 5 skills (Jaccard 0.8). -/
def jaccardHigh : RawRecord :=
  ⟨"Grace Hopper", "grace@navy.mil", "5553334444", ["java", "python", "sql", "go"]⟩

/-- Shares 3 of the candidate's 5 skills; union has 5 skills (Jaccard 0.6). -/
def jaccardLow : RawRecord :=
  ⟨"Alan Turing", "alan@bletchley.uk", "5555556666", ["java", "python", "sql"]⟩

theorem sim_high_eval :
    skillsSimilarity (normalizeSkills jaccardCand.skills)
      (normalizeSkills jaccardHigh.skills) = 4/5 := by
  have hc : ((normalizeSkills jaccardCand.skills).toFinset
      ∩ (normalizeSkills jaccardHigh.skills).toFinset).card = 4 := by decide
  have ht : ((normalizeSkills jaccardCand.skills).toFinset
      ∪ (normalizeSkills jaccardHigh.skills).toFinset).card = 5 := by decide
  unfold skillsSimilarity
  rw [hc, ht]
  norm_num

theorem sim_low_eval :
    skillsSimilarity (normalizeSkills jaccardCand.skills)
      (normalizeSkills jaccardLow.skills) = 3/5 := by
  have hc : ((normalizeSkills jaccardCand.skills).toFinset
      ∩ (normalizeSkills jaccardLow.skills).toFinset).card = 3 := by decide
  have ht : ((normalizeSkills jaccardCand.skills).toFinset
      ∪ (normalizeSkills jaccardLow.skills).toFinset).card = 5 := by decide
  unfold skillsSimilarity
  rw [hc, ht]
  norm_num

theorem checkExisting_high_eval :
    checkExisting (pyLower (pyStrip jaccardCand.name)) (pyLower (pyStrip jaccardCand.email))
      (pyStrip jaccardCand.phone) (normalizeSkills jaccardCand.skills) jaccardHigh
        = some .bySkills := by
  have hle : (4 : ℚ)/5 ≤ skillsSimilarity (normalizeSkills jaccardCand.skills)
      (normalizeSkills jaccardHigh.skills) := le_of_eq sim_high_eval.symm
  unfold checkExisting
  rw [if_neg (by decide), if_neg (by decide), if_neg (by decide),
    if_pos (by rw [decide_eq_true hle]; decide)]

theorem checkExisting_low_eval :
    checkExisting (pyLower (pyStrip jaccardCand.name)) (pyLower (pyStrip jaccardCand.email))
      (pyStrip jaccardCand.phone) (normalizeSkills jaccardCand.skills) jaccardLow
        = none := by
  have hnle : ¬ ((4 : ℚ)/5 ≤ skillsSimilarity (normalizeSkills jaccardCand.skills)
      (normalizeSkills jaccardLow.skills)) := by
    rw [sim_low_eval]; norm_num
  unfold checkExisting
  rw [if_neg (by decide), if_neg (by decide), if_neg (by decide),
    if_neg (by rw [decide_eq_false hnle]; decide)]

theorem uniqueness_high_eval :
    checkResumeUniqueness jaccardCand (.ok [jaccardHigh]) = .duplicate .bySkills := by
  have h0 : missingFieldsOf jaccardCand = [] := by decide
  have hfd : findDuplicate (pyLower (pyStrip jaccardCand.name))
      (pyLower (pyStrip jaccardCand.email)) (pyStrip jaccardCand.phone)
      (normalizeSkills jaccardCand.skills) [jaccardHigh] = some .bySkills := by
    unfold findDuplicate
    rw [checkExisting_high_eval]
  unfold checkResumeUniqueness
  rw [h0, if_neg (by decide)]
  change (match findDuplicate (pyLower (pyStrip jaccardCand.name))
      (pyLower (pyStrip jaccardCand.email)) (pyStrip jaccardCand.phone)
      (normalizeSkills jaccardCand.skills) [jaccardHigh] with
    | some f => UniquenessOutcome.duplicate f
    | none => UniquenessOutcome.uniqueResume) = UniquenessOutcome.duplicate DupField.bySkills
  rw [hfd]

theorem uniqueness_low_eval :
    checkResumeUniqueness jaccardCand (.ok [jaccardLow]) = .uniqueResume := by
  have h0 : missingFieldsOf jaccardCand = [] := by decide
  have hfd : findDuplicate (pyLower (pyStrip jaccardCand.name))
      (pyLower (pyStrip jaccardCand.email)) (pyStrip jaccardCand.phone)
      (normalizeSkills jaccardCand.skills) [jaccardLow] = none := by
    unfold findDuplicate
    rw [checkExisting_low_eval]
    unfold findDuplicate
    rfl
  unfold checkResumeUniqueness
  rw [h0, if_neg (by decide)]
  change (match findDuplicate (pyLower (pyStrip jaccardCand.name))
      (pyLower (pyStrip jaccardCand.email)) (pyStrip jaccardCand.phone)
      (normalizeSkills jaccardCand.skills) [jaccardLow] with
    | some f => UniquenessOutcome.duplicate f
    | none => UniquenessOutcome.uniqueResume) = UniquenessOutcome.uniqueResume
  rw [hfd]

/-- C5: with no missing fields and a successful history read, the record is
rejected as duplicate exactly when some prior record matches on name, email,
phone or skill-Jaccard at least 0.8; a 4-of-5-union overlap (0.8) is flagged
while a 3-of-5 overlap (0.6) is not. -/
theorem duplicate_policy (c : RawRecord) (hist : List RawRecord)
    (hmiss : missingFieldsOf c = []) :
    ((∃ f, checkResumeUniqueness c (.ok hist) = .duplicate f)
        ↔ ∃ ex ∈ hist, specMatches c ex)
      ∧ checkResumeUniqueness jaccardCand (.ok [jaccardHigh]) = .duplicate .bySkills
      ∧ checkResumeUniqueness jaccardCand (.ok [jaccardLow]) = .uniqueResume := by
  refine ⟨?_, uniqueness_high_eval, uniqueness_low_eval⟩
  unfold checkResumeUniqueness
  rw [hmiss, if_neg (by decide)]
  rw [← findDuplicate_some_iff c hist hmiss]
  rcases hd : findDuplicate (pyLower (pyStrip c.name)) (pyLower (pyStrip c.email))
      (pyStrip c.phone) (normalizeSkills c.skills) hist with _ | f <;>
    simp [hd]

/-- Witness for C5 at a concrete candidate and history. -/
theorem duplicate_policy_witness :
    missingFieldsOf jaccardCand = []
      ∧ (((∃ f, checkResumeUniqueness jaccardCand (.ok [jaccardHigh]) = .duplicate f)
            ↔ ∃ ex ∈ [jaccardHigh], specMatches jaccardCand ex)
          ∧ checkResumeUniqueness jaccardCand (.ok [jaccardHigh]) = .duplicate .bySkills
          ∧ checkResumeUniqueness jaccardCand (.ok [jaccardLow]) = .uniqueResume) :=
  ⟨by decide, duplicate_policy jaccardCand [jaccardHigh] (by decide)⟩

/-- C6: a candidate with missing name/email/phone/skills is rejected as
`missing_required_fields` independently of the history (so never as a
duplicate), and a failed history read is treated as unique and allowed
through. -/
theorem missing_fields_and_db_failure_policy :
    (∀ (c : RawRecord) (h : Except Unit (List RawRecord)),
        missingFieldsOf c ≠ [] →
          checkResumeUniqueness c h = .missingRequiredFields (missingFieldsOf c)
            ∧ (checkResumeUniqueness c h).isUniqueFlag = false)
      ∧ (∀ (c : RawRecord) (h : Except Unit (List RawRecord)) (f : DupField),
          ¬ (checkResumeUniqueness c h = .missingRequiredFields (missingFieldsOf c)
              ∧ checkResumeUniqueness c h = .duplicate f))
      ∧ (∀ c : RawRecord, missingFieldsOf c = [] →
          checkResumeUniqueness c (.error ()) = .dbCheckSkipped
            ∧ (checkResumeUniqueness c (.error ())).isUniqueFlag = true) := by
  refine ⟨?_, ?_, ?_⟩
  · intro c h hne
    have hb : (missingFieldsOf c).isEmpty = false := by
      rcases h0 : missingFieldsOf c with _ | ⟨a, l⟩
      · exact absurd h0 hne
      · rfl
    unfold checkResumeUniqueness
    rw [hb]
    exact ⟨rfl, rfl⟩
  · rintro c h f ⟨h1, h2⟩
    rw [h1] at h2
    cases h2
  · intro c hmiss
    unfold checkResumeUniqueness
    rw [hmiss, if_neg (by decide)]
    exact ⟨rfl, rfl⟩

/-- Witness for C6 at a concrete blank candidate and a concrete complete
candidate. -/
theorem missing_fields_and_db_failure_policy_witness :
    (checkResumeUniqueness ⟨"", "", "", []⟩ (.ok [jaccardHigh])
        = .missingRequiredFields (missingFieldsOf ⟨"", "", "", []⟩)
      ∧ (checkResumeUniqueness ⟨"", "", "", []⟩ (.ok [jaccardHigh])).isUniqueFlag = false)
    ∧ (checkResumeUniqueness jaccardCand (.error ()) = .dbCheckSkipped
      ∧ (checkResumeUniqueness jaccardCand (.error ())).isUniqueFlag = true) :=
  ⟨missing_fields_and_db_failure_policy.1 ⟨"", "", "", []⟩ (.ok [jaccardHigh]) (by decide),
   missing_fields_and_db_failure_policy.2.2 jaccardCand (by decide)⟩

/-! ### Retry orchestration

From `app/services/retry_processor.py`.  The per-attempt processing call is
abstracted as an oracle from attempt number and strategy to an outcome:
success, a taxonomy error (`ResumeParsingError` subclass), or an unexpected
exception.  `strategy_map`, `_get_strategy_for_attempt` and the
`process_with_retry` loop are embedded exactly. -/

/-- `RetryStrategy` enum. -/
inductive RetryStrategy where
  | standard
  | enhancedPreprocessing
  | fallbackExtraction
  | manualExtraction
deriving DecidableEq, Repr

/-- Taxonomy error kinds as far as `strategy_map` distinguishes them: the
two keyed classes plus every other `ResumeParsingError` subclass. -/
inductive TaxKind where
  | contactInfoMissing
  | aiParsing
  | otherTaxonomy
deriving DecidableEq, Repr

/-- `self.strategy_map`: escalation lists keyed by error class. -/
def strategyMap : TaxKind → Option (List RetryStrategy)
  | .contactInfoMissing =>
    some [.enhancedPreprocessing, .fallbackExtraction, .manualExtraction]
  | .aiParsing =>
    some [.enhancedPreprocessing, .fallbackExtraction, .standard]
  | .otherTaxonomy => none

/-- The `fallback_strategies` default list in `_get_strategy_for_attempt`. -/
def fallbackStrategies : List RetryStrategy :=
  [.enhancedPreprocessing, .fallbackExtraction, .manualExtraction]

/-- `_get_strategy_for_attempt` (lines 163-183). -/
def getStrategyForAttempt (attemptNum : Nat) (lastError : Option TaxKind) :
    RetryStrategy :=
  if attemptNum = 0 then .standard
  else
    match (match lastError with
           | some k => (strategyMap k).bind (fun strategies => strategies.get? (attemptNum - 1))
           | none => none) with
    | some s => s
    | none =>
      match fallbackStrategies.get? (attemptNum - 1) with
      | some s => s
      | none => .standard

/-- Outcome of one call of the processing function under a strategy. -/
inductive AttemptOutcome where
  | success
  | taxonomyError (k : TaxKind)
  | unexpectedError
deriving DecidableEq, Repr

/-- One entry of the `attempts` log (`RetryAttempt`). -/
structure AttemptRec where
  attemptNumber : Nat
  strategy : RetryStrategy
  success : Bool
  errorKind : Option TaxKind
deriving DecidableEq, Repr

/-- The dict returned by `process_with_retry` (success flag and log). -/
structure RetryResult where
  success : Bool
  attempts : List AttemptRec
deriving DecidableEq, Repr

/-- The `for attempt_num in range(self.max_retries + 1)` loop of
`process_with_retry` (lines 87-161), with `fuel` the number of remaining
loop indices (`fuel = maxRetries + 1 - n` at entry): a success returns
immediately; a taxonomy error is appended to the log and retried unless
`attempt_num >= max_retries`; an unexpected error returns at once without
recording the current attempt. -/
def retryLoop (oracle : Nat → RetryStrategy → AttemptOutcome) (maxRetries : Nat) :
    (n : Nat) → (fuel : Nat) → (acc : List AttemptRec) → (lastError : Option TaxKind) →
      RetryResult
  | _, 0, acc, _ => ⟨false, acc⟩
  | n, fuel + 1, acc, le =>
    match oracle n (getStrategyForAttempt n le) with
    | .success => ⟨true, acc ++ [⟨n + 1, getStrategyForAttempt n le, true, none⟩]⟩
    | .taxonomyError k =>
      if maxRetries ≤ n then
        ⟨false, acc ++ [⟨n + 1, getStrategyForAttempt n le, false, some k⟩]⟩
      else
        retryLoop oracle maxRetries (n + 1) fuel
          (acc ++ [⟨n + 1, getStrategyForAttempt n le, false, some k⟩]) (some k)
    | .unexpectedError => ⟨false, acc⟩

/-- `process_with_retry` entry point. -/
def processWithRetry (maxRetries : Nat)
    (oracle : Nat → RetryStrategy → AttemptOutcome) : RetryResult :=
  retryLoop oracle maxRetries 0 (maxRetries + 1) [] none

theorem retryLoop_length (oracle : Nat → RetryStrategy → AttemptOutcome)
    (maxRetries : Nat) :
    ∀ (fuel n : Nat) (acc : List AttemptRec) (le : Option TaxKind),
      (retryLoop oracle maxRetries n fuel acc le).attempts.length
        ≤ acc.length + fuel := by
  intro fuel
  induction fuel with
  | zero => intro n acc le; simp [retryLoop]
  | succ fuel ih =>
    intro n acc le
    unfold retryLoop
    cases h : oracle n (getStrategyForAttempt n le) with
    | success => simp
    | taxonomyError k =>
      dsimp only
      split_ifs
      · simp
      · have hrec := ih (n + 1)
          (acc ++ [AttemptRec.mk (n + 1) (getStrategyForAttempt n le) false (some k)]) (some k)
        simp only [List.length_append, List.length_cons, List.length_nil] at hrec ⊢
        omega
    | unexpectedError =>
      simp only []
      omega

theorem retryLoop_unexpected (oracle : Nat → RetryStrategy → AttemptOutcome)
    (maxRetries k : Nat)
    (hfail : ∀ j, j < k → ∀ s, ∃ e, oracle j s = .taxonomyError e)
    (hunexp : ∀ s, oracle k s = .unexpectedError)
    (hk : k ≤ maxRetries) :
    ∀ (fuel n : Nat) (acc : List AttemptRec) (le : Option TaxKind),
      n ≤ k → k < n + fuel →
        (retryLoop oracle maxRetries n fuel acc le).success = false
          ∧ (retryLoop oracle maxRetries n fuel acc le).attempts.length
              = acc.length + (k - n) := by
  intro fuel
  induction fuel with
  | zero => intro n acc le hn hlt; omega
  | succ fuel ih =>
    intro n acc le hn hlt
    by_cases hnk : n = k
    · subst hnk
      unfold retryLoop
      rw [hunexp (getStrategyForAttempt n le)]
      simp
    · have hlt2 : n < k := lt_of_le_of_ne hn hnk
      obtain ⟨e, he⟩ := hfail n hlt2 (getStrategyForAttempt n le)
      unfold retryLoop
      rw [he]
      dsimp only
      rw [if_neg (by omega)]
      obtain ⟨hsucc, hlen⟩ := ih (n + 1)
        (acc ++ [⟨n + 1, getStrategyForAttempt n le, false, some e⟩]) (some e)
        (by omega) (by omega)
      refine ⟨hsucc, ?_⟩
      rw [hlen]
      simp [List.length_append]
      omega

/-- C7: the recorded attempt log never exceeds `max_retries + 1` entries
(for every oracle), and if the first `k` attempts raise taxonomy errors and
attempt `k` raises a non-taxonomy (unexpected) exception, processing stops
at once with `success = false` and only the `k` earlier attempts recorded —
no further retry is made. -/
theorem retry_bound_and_unexpected_abort
    (maxRetries k : Nat) (oracle : Nat → RetryStrategy → AttemptOutcome)
    (hk : k ≤ maxRetries)
    (hfail : ∀ j, j < k → ∀ s, ∃ e, oracle j s = .taxonomyError e)
    (hunexp : ∀ s, oracle k s = .unexpectedError) :
    (∀ orc : Nat → RetryStrategy → AttemptOutcome,
        (processWithRetry maxRetries orc).attempts.length ≤ maxRetries + 1)
      ∧ (processWithRetry maxRetries oracle).success = false
      ∧ (processWithRetry maxRetries oracle).attempts.length = k := by
  refine ⟨fun orc => ?_, ?_, ?_⟩
  · have := retryLoop_length orc maxRetries (maxRetries + 1) 0 [] none
    simpa [processWithRetry] using this
  · exact (retryLoop_unexpected oracle maxRetries k hfail hunexp hk
      (maxRetries + 1) 0 [] none (Nat.zero_le k) (by omega)).1
  · have := (retryLoop_unexpected oracle maxRetries k hfail hunexp hk
      (maxRetries + 1) 0 [] none (Nat.zero_le k) (by omega)).2
    simpa [processWithRetry] using this

/-- Oracle for the C7 witness: a taxonomy failure on the first attempt, an
unexpected exception on the second. -/
def unexpectedWitnessOracle : Nat → RetryStrategy → AttemptOutcome :=
  fun n _ => if n = 0 then .taxonomyError .aiParsing else .unexpectedError

/-- Witness for C7 at `max_retries = 3` with the unexpected error on
attempt index 1. -/
theorem retry_bound_and_unexpected_abort_witness :
    (∀ orc : Nat → RetryStrategy → AttemptOutcome,
        (processWithRetry 3 orc).attempts.length ≤ 3 + 1)
      ∧ (processWithRetry 3 unexpectedWitnessOracle).success = false
      ∧ (processWithRetry 3 unexpectedWitnessOracle).attempts.length = 1 :=
  retry_bound_and_unexpected_abort 3 1 unexpectedWitnessOracle
    (by norm_num)
    (fun j hj s => ⟨.aiParsing, by
      have hj0 : j = 0 := by omega
      subst hj0
      rfl⟩)
    (fun s => rfl)

/-- C8: attempt 1 always uses the Standard strategy, and the strategies for
attempts 2-4 are chosen by the lookup table keyed by the previous failure:
a contact-fields failure escalates EnhancedPreprocessing, FallbackExtraction,
ManualExtraction; an AI-parsing failure escalates EnhancedPreprocessing,
FallbackExtraction, Standard. -/
theorem strategy_escalation_table :
    (∀ e : Option TaxKind, getStrategyForAttempt 0 e = .standard)
      ∧ getStrategyForAttempt 1 (some .contactInfoMissing) = .enhancedPreprocessing
      ∧ getStrategyForAttempt 2 (some .contactInfoMissing) = .fallbackExtraction
      ∧ getStrategyForAttempt 3 (some .contactInfoMissing) = .manualExtraction
      ∧ getStrategyForAttempt 1 (some .aiParsing) = .enhancedPreprocessing
      ∧ getStrategyForAttempt 2 (some .aiParsing) = .fallbackExtraction
      ∧ getStrategyForAttempt 3 (some .aiParsing) = .standard :=
  ⟨fun _ => rfl, rfl, rfl, rfl, rfl, rfl, rfl⟩

/-! ### File format validation

From `app/services/file_validator.py`.  File contents are byte lists.
`os.path.splitext` is modelled for the names the service sees: the
extension starts at the last dot unless only leading dots precede it. -/

/-- The extension (with dot) of a filename, as `os.path.splitext` computes
it: text after the last dot, empty when there is no dot or only leading
dots precede it. -/
def extOf (filename : String) : String :=
  let cs := filename.data
  let afterDot := cs.reverse.takeWhile (fun c => c != '.')
  if afterDot.length = cs.length then ""
  else
    let stem := cs.take (cs.length - afterDot.length - 1)
    if stem.all (fun c => c == '.') then ""
    else "." ++ (⟨afterDot.reverse⟩ : String)

/-- Whether `sub` occurs as a contiguous run inside the second list
(Python `in` on strings/bytes). -/
def containsSub {α : Type} [DecidableEq α] (sub : List α) : List α → Bool
  | [] => sub.isEmpty
  | a :: t => sub.isPrefixOf (a :: t) || containsSub sub t

/-- The `metadata_extensions` list of `FileValidator`. -/
def metadataExtensions : List String := [".json", ".metadata.json", ".meta"]

/-- `_is_metadata_file`: metadata extension, or the lowered filename
contains the substring `metadata`. -/
def isMetadataFile (filename : String) : Bool :=
  metadataExtensions.contains (pyLower (extOf filename))
    || containsSub ("metadata".data) ((pyLower filename).data)

/-- ASCII bytes of a marker string. -/
def asciiBytes (s : String) : List Nat := s.data.map Char.toNat

/-- `_validate_pdf`: returns the corruption message, if corrupted. -/
def validatePdf (content : List Nat) : Option String :=
  if !(asciiBytes "%PDF").isPrefixOf content then some "Invalid PDF header"
  else if !containsSub (asciiBytes "%%EOF") content then
    some "PDF file appears to be incomplete"
  else if containsSub [0, 0, 0, 0] (content.take 1000) then
    some "PDF file appears to be corrupted"
  else none

/-- `_validate_docx`. -/
def validateDocx (content : List Nat) : Option String :=
  if !([80, 75, 3, 4].isPrefixOf content || [80, 75, 5, 6].isPrefixOf content
      || [80, 75, 7, 8].isPrefixOf content) then
    some "Invalid DOCX file format"
  else if !containsSub (asciiBytes "[Content_Types].xml") content then
    some "DOCX file appears to be corrupted or incomplete"
  else none

/-- `_validate_doc`. -/
def validateDoc (content : List Nat) : Option String :=
  if !([208, 207, 17, 224, 161, 177, 26, 225].isPrefixOf content) then
    some "Invalid DOC file format"
  else if content.length < 512 then
    some "DOC file appears to be too small or corrupted"
  else none

/-- ASCII whitespace bytes stripped by Python `bytes.strip()`. -/
def isWsByte (b : Nat) : Bool :=
  b = 9 || b = 10 || b = 11 || b = 12 || b = 13 || b = 32

/-- `_validate_txt`: `latin-1` decoding never fails, so the only corruption
is fewer than 10 bytes after stripping whitespace. -/
def validateTxt (content : List Nat) : Option String :=
  if ((content.dropWhile isWsByte).reverse.dropWhile isWsByte).length < 10 then
    some "Text file appears to be empty or too short"
  else none

/-- `_validate_rtf`. -/
def validateRtf (content : List Nat) : Option String :=
  if !([123, 92, 114, 116, 102].isPrefixOf content) then
    some "Invalid RTF file format"
  else if !containsSub [125] content then
    some "RTF file appears to be incomplete"
  else none

/-- The keys of `supported_types`. -/
def supportedExtensions : List String := [".pdf", ".docx", ".doc", ".txt", ".rtf"]

/-- Dispatch to the per-format structural validator. -/
def formatCheck (ext : String) (content : List Nat) : Option String :=
  if ext == ".pdf" then validatePdf content
  else if ext == ".docx" then validateDocx content
  else if ext == ".doc" then validateDoc content
  else if ext == ".txt" then validateTxt content
  else if ext == ".rtf" then validateRtf content
  else none

/-- `FileValidationResult` dataclass (diagnostic `suggested_action`
omitted). -/
structure FileValidationResult where
  isValid : Bool
  fileType : String
  isMetadata : Bool
  isCorrupted : Bool
  errorMessage : Option String
deriving DecidableEq, Repr

/-- `FileValidator.validate_file` (lines 48-141): metadata-filename check,
then non-empty, size ceiling, supported extension, and the per-format
structural check.  The magic-byte sniff between the last two only logs a
warning and does not alter the result. -/
def validateFile (content : List Nat) (filename : String) : FileValidationResult :=
  if isMetadataFile filename then
    ⟨false, pyLower (extOf filename), true, false,
      some "This is a metadata file, not a resume"⟩
  else if content.length = 0 then
    ⟨false, pyLower (extOf filename), false, true, some "File is empty"⟩
  else if 50 * 1024 * 1024 < content.length then
    ⟨false, pyLower (extOf filename), false, false, some "File is too large (max 50MB)"⟩
  else if !(supportedExtensions.contains (pyLower (extOf filename))) then
    ⟨false, pyLower (extOf filename), false, false,
      some ("Unsupported file type: " ++ pyLower (extOf filename))⟩
  else
    match formatCheck (pyLower (extOf filename)) content with
    | some msg => ⟨false, pyLower (extOf filename), false, true, some msg⟩
    | none => ⟨true, pyLower (extOf filename), false, false, none⟩

/-- C9 counterexample: an empty file whose filename marks it as a metadata
artifact is rejected by the metadata check, not reported as empty-file
corruption as the claim asserts. -/
theorem validator_order_counterexample :
    (validateFile [] "resume.metadata.json").isMetadata = true
      ∧ (validateFile [] "resume.metadata.json").isCorrupted = false := by
  constructor <;> rfl

/-- C9 (amended): the validator applies its checks in the order
metadata-filename, non-empty, size ceiling, supported extension,
per-format structural check; in particular an empty file whose filename
indicates a metadata artifact is reported with `is_metadata = true` and
`is_corrupted = false`. -/
theorem validator_check_order
    (content : List Nat) (filename : String) :
    (isMetadataFile filename = true →
        validateFile content filename
          = ⟨false, pyLower (extOf filename), true, false,
              some "This is a metadata file, not a resume"⟩)
      ∧ (isMetadataFile filename = false → content.length = 0 →
          validateFile content filename
            = ⟨false, pyLower (extOf filename), false, true, some "File is empty"⟩)
      ∧ (isMetadataFile filename = false → content.length ≠ 0 →
          content.length ≤ 50 * 1024 * 1024 →
          supportedExtensions.contains (pyLower (extOf filename)) = false →
          validateFile content filename
            = ⟨false, pyLower (extOf filename), false, false,
                some ("Unsupported file type: " ++ pyLower (extOf filename))⟩)
      ∧ (isMetadataFile filename = false → content.length ≠ 0 →
          content.length ≤ 50 * 1024 * 1024 →
          supportedExtensions.contains (pyLower (extOf filename)) = true →
          validateFile content filename
            = match formatCheck (pyLower (extOf filename)) content with
              | some msg => ⟨false, pyLower (extOf filename), false, true, some msg⟩
              | none => ⟨true, pyLower (extOf filename), false, false, none⟩)
      ∧ ((validateFile [] "resume.metadata.json").isMetadata = true
          ∧ (validateFile [] "resume.metadata.json").isCorrupted = false) := by
  refine ⟨?_, ?_, ?_, ?_, by constructor <;> rfl⟩
  · intro hm
    unfold validateFile
    rw [hm, if_pos rfl]
  · intro hm hz
    unfold validateFile
    rw [hm]
    simp only [Bool.false_eq_true, if_false]
    rw [if_pos hz]
  · intro hm hz hsz hext
    unfold validateFile
    rw [hm]
    simp only [Bool.false_eq_true, if_false]
    rw [if_neg hz, if_neg (by omega), if_pos (by rw [hext]; rfl)]
  · intro hm hz hsz hext
    unfold validateFile
    rw [hm]
    simp only [Bool.false_eq_true, if_false]
    rw [if_neg hz, if_neg (by omega), if_neg (by rw [hext]; simp)]

/-- Witness for the amended C9 at a concrete input. -/
theorem validator_check_order_witness :
    validateFile [] "resume.metadata.json"
      = ⟨false, pyLower (extOf "resume.metadata.json"), true, false,
          some "This is a metadata file, not a resume"⟩ :=
  (validator_check_order [] "resume.metadata.json").1 rfl

/-! ### Bulk orchestration registry traces

From `_background_process_bulk` (resume_controller.py lines 1704-1853),
`cancel_job` (lines 3199-3243) and `process_reupload_files` (lines
3387-3559).  The job registry entry is observed through the fields the
claims mention; `backgroundBulkTrace` lists the registry states after each
mutation, in program order:

* creation in `bulk_parse_resumes` (processing, total 0, no results);
* the pre-loop `total_files` update (line 1752);
* one state per loop iteration (lines 1794-1804): `processed = i + 1`,
  `results` holds the `z` zip-extraction failure entries plus one entry per
  processed file, `failed_files` counts both;
* when a cancel request lands (`cancelAt = some k`, observed by the check
  at line 1759 before iteration `k`), the `cancel_job` write flips the
  status to cancelled and the loop breaks, so only `min k n` files run;
* the unconditional final update (lines 1831-1843): status `completed`,
  `processed_files = total_files = n`, results as accumulated. -/

/-- Job lifecycle states. -/
inductive JobStatus where
  | queued
  | processing
  | completed
  | completedWithErrors
  | failed
  | cancelled
deriving DecidableEq, Repr

/-- An observable snapshot of one registry entry. -/
structure JobView where
  status : JobStatus
  total : Nat
  processed : Nat
  resultsLen : Nat
  failedFiles : Nat
deriving DecidableEq, Repr

/-- Failed files among the first `i` loop iterations. -/
def failsUpTo (fails : Nat → Bool) (i : Nat) : Nat :=
  (List.range i).countP fails

/-- Number of loop iterations actually run: all `n`, or `min k n` when the
cancellation landed before the check of iteration `k`. -/
def iterationsRun (n : Nat) (cancelAt : Option Nat) : Nat :=
  match cancelAt with
  | none => n
  | some k => min k n

/-- Registry state written by the incremental update of iteration `i`
(lines 1794-1804). -/
def bulkIterSnap (z n : Nat) (fails : Nat → Bool) (i : Nat) : JobView :=
  ⟨.processing, n, i + 1, z + (i + 1), z + failsUpTo fails (i + 1)⟩

/-- Registry state written by `cancel_job` when it lands before the check
of iteration `k`. -/
def bulkCancelSnap (z n : Nat) (fails : Nat → Bool) (k : Nat) : JobView :=
  if min k n = 0 then ⟨.cancelled, n, 0, 0, 0⟩
  else ⟨.cancelled, n, min k n, z + min k n, z + failsUpTo fails (min k n)⟩

/-- Registry state written by the unconditional final update (lines
1831-1843): status completed, `processed = total = n`, results as
accumulated before the loop exited. -/
def bulkFinalSnap (z n : Nat) (fails : Nat → Bool) (cancelAt : Option Nat) : JobView :=
  ⟨.completed, n, n, z + iterationsRun n cancelAt,
    z + failsUpTo fails (iterationsRun n cancelAt)⟩

/-- The sequence of registry states of one `_background_process_bulk` run
with `z` zip-extraction failures, `n` collected files, per-file failure
flags `fails`, and an optional cancellation landing before iteration
`cancelAt`. -/
def backgroundBulkTrace (z n : Nat) (fails : Nat → Bool)
    (cancelAt : Option Nat) : List JobView :=
  [⟨.processing, 0, 0, 0, 0⟩, ⟨.processing, n, 0, 0, 0⟩]
    ++ (List.range (iterationsRun n cancelAt)).map (bulkIterSnap z n fails)
    ++ (match cancelAt with
        | none => []
        | some k => [bulkCancelSnap z n fails k])
    ++ [bulkFinalSnap z n fails cancelAt]

/-- C2 counterexample: a 1-file job cancelled before the first iteration.
The final registry update (written after the cancelled loop) reports
`processed = 1` with an empty results list, so a snapshot with
`results` shorter than `processed` is observable, contradicting the
claim. -/
theorem bulk_results_shorter_counterexample :
    ∃ s ∈ backgroundBulkTrace 0 1 (fun _ => false) (some 0),
      s.resultsLen < s.processed := by
  refine ⟨bulkFinalSnap 0 1 (fun _ => false) (some 0), ?_, ?_⟩
  · simp [backgroundBulkTrace]
  · decide

/-- C2 (amended): at every observable registry state `processed ≤ total`,
and in a run that is never cancelled the results list always has at least
`processed` entries; but the final update of a cancelled run writes
`processed = total = n` while results keeps only the `z + min k n` entries
accumulated before the break, so it can be shorter than `processed`. -/
theorem bulk_registry_invariants (z n : Nat) (fails : Nat → Bool)
    (cancelAt : Option Nat) :
    (∀ s ∈ backgroundBulkTrace z n fails cancelAt, s.processed ≤ s.total)
      ∧ (cancelAt = none →
          ∀ s ∈ backgroundBulkTrace z n fails none, s.processed ≤ s.resultsLen)
      ∧ (backgroundBulkTrace z n fails cancelAt).getLast?
          = some (bulkFinalSnap z n fails cancelAt)
      ∧ (∀ k, cancelAt = some k →
          (bulkFinalSnap z n fails cancelAt).processed = n
            ∧ (bulkFinalSnap z n fails cancelAt).resultsLen = z + min k n) := by
  refine ⟨?_, ?_, ?_, ?_⟩
  · intro s hs
    simp only [backgroundBulkTrace, List.append_assoc, List.mem_append,
      List.mem_cons, List.mem_singleton, List.mem_map, List.mem_range,
      List.not_mem_nil] at hs
    rcases hs with (h | h | h) | hs
    · subst h; simp
    · subst h; simp
    · simp at h
    rcases hs with ⟨i, hi, rfl⟩ | hs
    · have hin : i + 1 ≤ n := by
        have : iterationsRun n cancelAt ≤ n := by
          unfold iterationsRun
          cases cancelAt <;> simp
        omega
      simpa [bulkIterSnap] using hin
    rcases hs with hs | hs
    · rcases cancelAt with _ | k
      · simp at hs
      · simp only [List.mem_singleton] at hs
        subst hs
        unfold bulkCancelSnap
        split_ifs
        · simp
        · simp [min_le_right]
    · rcases hs with hs | hs
      · subst hs; simp [bulkFinalSnap]
      · simp at hs
  · rintro rfl s hs
    simp only [backgroundBulkTrace, List.append_assoc, List.mem_append,
      List.mem_cons, List.mem_singleton, List.mem_map, List.mem_range,
      List.not_mem_nil] at hs
    rcases hs with (h | h | h) | hs
    · subst h; simp
    · subst h; simp
    · simp at h
    rcases hs with ⟨i, hi, rfl⟩ | hs
    · simp [bulkIterSnap]
    rcases hs with hs | hs
    · simp at hs
    · rcases hs with hs | hs
      · subst hs
        simp [bulkFinalSnap, iterationsRun]
      · simp at hs
  · unfold backgroundBulkTrace
    rw [show ([(⟨.processing, 0, 0, 0, 0⟩ : JobView), ⟨.processing, n, 0, 0, 0⟩]
        ++ (List.range (iterationsRun n cancelAt)).map (bulkIterSnap z n fails)
        ++ (match cancelAt with
            | none => []
            | some k => [bulkCancelSnap z n fails k])
        ++ [bulkFinalSnap z n fails cancelAt])
      = ([(⟨.processing, 0, 0, 0, 0⟩ : JobView), ⟨.processing, n, 0, 0, 0⟩]
        ++ (List.range (iterationsRun n cancelAt)).map (bulkIterSnap z n fails)
        ++ (match cancelAt with
            | none => []
            | some k => [bulkCancelSnap z n fails k]))
        ++ [bulkFinalSnap z n fails cancelAt] from by
        simp [List.append_assoc]]
    exact List.getLast?_concat _
  · rintro k rfl
    refine ⟨rfl, ?_⟩
    simp [bulkFinalSnap, iterationsRun]

/-- Witness for the amended C2: a 2-file job cancelled before iteration 1
ends with `processed = 2` but only 1 result entry. -/
theorem bulk_registry_invariants_witness :
    (bulkFinalSnap 0 2 (fun _ => false) (some 1)).processed = 2
      ∧ (bulkFinalSnap 0 2 (fun _ => false) (some 1)).resultsLen = 0 + min 1 2 :=
  (bulk_registry_invariants 0 2 (fun _ => false) (some 1)).2.2.2 1 rfl

/-! ### Final job status (C3) and the per-file processor (C10) -/

/-- Per-file outcomes in `process_reupload_files`: only a fully saved
resume avoids the `failed_count` increment. -/
inductive ReuploadOutcome where
  | saved
  | notFound
  | saveFailed
  | processFailed
  | raised
deriving DecidableEq, Repr

/-- Whether an outcome increments `failed_count`. -/
def ReuploadOutcome.isFail : ReuploadOutcome → Bool
  | .saved => false
  | _ => true

/-- `failed_count` after the reupload loop over `n` files. -/
def reuploadFailedCount (outcome : Nat → ReuploadOutcome) (n : Nat) : Nat :=
  (List.range n).countP (fun i => (outcome i).isFail)

/-- The final status written by `process_reupload_files` (line 3546):
`completed` when `failed_count == 0`, else `completed_with_errors`. -/
def reuploadFinalStatus (outcome : Nat → ReuploadOutcome) (n : Nat) : JobStatus :=
  if reuploadFailedCount outcome n = 0 then .completed else .completedWithErrors

/-- C3 counterexample: a 1-file background bulk job whose only file fails
still ends with status `completed` (the claim requires
`completed_with_errors`); and a 2-file job cancelled before iteration 1
shows a `cancelled` state that the final update overwrites with
`completed`. -/
theorem bulk_final_status_counterexample :
    ((backgroundBulkTrace 0 1 (fun _ => true) none).getLast?
        = some ⟨.completed, 1, 1, 1, 1⟩)
      ∧ (⟨.cancelled, 2, 1, 1, 0⟩ : JobView)
          ∈ backgroundBulkTrace 0 2 (fun _ => false) (some 1)
      ∧ ((backgroundBulkTrace 0 2 (fun _ => false) (some 1)).getLast?
          = some ⟨.completed, 2, 2, 1, 0⟩) := by
  refine ⟨?_, ?_, ?_⟩
  · rw [(bulk_registry_invariants 0 1 (fun _ => true) none).2.2.1]
    rfl
  · simp [backgroundBulkTrace]
    right
    left
    rfl
  · rw [(bulk_registry_invariants 0 2 (fun _ => false) (some 1)).2.2.1]
    rfl

/-- C3 (amended): `_background_process_bulk` always ends the registry entry
with status `completed`, regardless of the per-file failure count and even
when the loop exited early on cancellation (the `cancelled` status is
overwritten); `process_reupload_files` ends with `completed` exactly when
zero files failed and `completed_with_errors` otherwise. -/
theorem bulk_final_status_policy (z n : Nat) (fails : Nat → Bool)
    (cancelAt : Option Nat) (outcome : Nat → ReuploadOutcome) (m : Nat) :
    ((backgroundBulkTrace z n fails cancelAt).getLast?
        = some (bulkFinalSnap z n fails cancelAt)
      ∧ (bulkFinalSnap z n fails cancelAt).status = .completed)
      ∧ (reuploadFinalStatus outcome m = .completed
          ↔ reuploadFailedCount outcome m = 0)
      ∧ (reuploadFailedCount outcome m ≠ 0
          → reuploadFinalStatus outcome m = .completedWithErrors) := by
  refine ⟨⟨(bulk_registry_invariants z n fails cancelAt).2.2.1, rfl⟩, ?_, ?_⟩
  · unfold reuploadFinalStatus
    split_ifs with h
    · simp [h]
    · simp [h]
  · intro h
    unfold reuploadFinalStatus
    rw [if_neg h]

/-- Witness for the amended C3 at a concrete failing run. -/
theorem bulk_final_status_policy_witness :
    reuploadFinalStatus (fun _ => ReuploadOutcome.processFailed) 1
      = .completedWithErrors :=
  (bulk_final_status_policy 0 1 (fun _ => true) none
      (fun _ => ReuploadOutcome.processFailed) 1).2.2 (by decide)

/-- Statuses of one per-file result dict. -/
inductive FileStatus where
  | success
  | partialSuccess
  | failedStatus
  | duplicateStatus
deriving DecidableEq, Repr

/-- Effect of `_process_single_file_from_data` (lines 926-1054) on the
shared state, given whether extraction yielded empty text, the parsed
record, and the uniqueness verdict: result status, whether the record was
appended to `batch_data_to_save`, and the counter increments. -/
structure SingleFileEffect where
  status : FileStatus
  addedToBatch : Bool
  successfulDelta : Nat
  failedDelta : Nat
  duplicateDelta : Nat
deriving DecidableEq, Repr

/-- `_process_single_file_from_data`: empty text fails the file; a
non-unique verdict marks it duplicate; otherwise the file is stored and
counted successful with status derived from the quality classifier
(`poor` maps to status `failed` with an error message, yet the record is
still batched and `successful_files` still incremented). -/
def processSingleFileFromData (textEmpty : Bool) (d : ParsedData)
    (u : UniquenessOutcome) : SingleFileEffect :=
  if textEmpty then ⟨.failedStatus, false, 0, 1, 0⟩
  else if u.isUniqueFlag = false then ⟨.duplicateStatus, false, 0, 0, 1⟩
  else
    match (validateParsedData d).quality with
    | .partialQ => ⟨.partialSuccess, true, 1, 0, 0⟩
    | .poor => ⟨.failedStatus, true, 1, 0, 0⟩
    | .good => ⟨.success, true, 1, 0, 0⟩

/-- A record whose essential fields and skills are present (so it passes
the uniqueness precheck) but that has only 4 populated fields, which the
classifier grades poor. -/
def poorRecord : ParsedData :=
  [("Name", .s "John Doe"), ("Email", .s "john@doe.io"),
   ("Phone", .s "5550001111"), ("Skills", .l ["python"])]

/-- C10: whenever text extraction succeeded and the uniqueness check passed,
the file is appended to the persistence batch and `successful_files` is
incremented even when the quality is poor, in which case the per-file
status is simultaneously `failed`; hence the successful count can exceed
the number of results whose status is a success. -/
theorem poor_quality_still_counted_successful (d : ParsedData)
    (u : UniquenessOutcome) (hu : u.isUniqueFlag = true) :
    ((processSingleFileFromData false d u).successfulDelta = 1
        ∧ (processSingleFileFromData false d u).addedToBatch = true)
      ∧ ((validateParsedData d).quality = .poor →
          (processSingleFileFromData false d u).status = .failedStatus)
      ∧ ((processSingleFileFromData false poorRecord .uniqueResume).successfulDelta = 1
          ∧ (processSingleFileFromData false poorRecord .uniqueResume).status
              ≠ .success) := by
  have hbranch : ∀ d2 : ParsedData,
      processSingleFileFromData false d2 u
        = match (validateParsedData d2).quality with
          | .partialQ => ⟨.partialSuccess, true, 1, 0, 0⟩
          | .poor => ⟨.failedStatus, true, 1, 0, 0⟩
          | .good => ⟨.success, true, 1, 0, 0⟩ := by
    intro d2
    unfold processSingleFileFromData
    rw [if_neg (by simp), if_neg (by simp [hu])]
  refine ⟨?_, ?_, by decide, by decide⟩
  · rw [hbranch d]
    rcases (validateParsedData d).quality <;> simp
  · intro hq
    rw [hbranch d, hq]

/-- Witness for C10 at the concrete poor-quality record. -/
theorem poor_quality_still_counted_successful_witness :
    ((processSingleFileFromData false poorRecord .uniqueResume).successfulDelta = 1
        ∧ (processSingleFileFromData false poorRecord .uniqueResume).addedToBatch = true)
      ∧ ((validateParsedData poorRecord).quality = .poor →
          (processSingleFileFromData false poorRecord .uniqueResume).status
            = .failedStatus)
      ∧ ((processSingleFileFromData false poorRecord .uniqueResume).successfulDelta = 1
          ∧ (processSingleFileFromData false poorRecord .uniqueResume).status
              ≠ .success) :=
  poor_quality_still_counted_successful poorRecord .uniqueResume rfl

end ATS
